import Mathlib

/-!
Verification of the mutating admission webhook
(`pkg/webhook/mutating/webhook.go` of linuxshokunin/kubewebhook).

The Go code is shallowly embedded: raw request bytes are modelled as
either a well-formed serialization of a JSON document or malformed
data; the review pipeline (`Review`, `mutatingAdmissionReview`) is
translated statement by statement; the collaborators that live outside
the translated file (the object-creator helpers, the error-response
helper, the jsonpatch library and the instrumenting wrapper) are
modelled from the specification, as marked in their doc comments.
-/

namespace Kubewebhook

/-- A JSON document.  Objects are ordered association lists of fields;
numbers are modelled as integers (no claim depends on fractional
values). -/
inductive Json where
  | null : Json
  | bool (b : Bool) : Json
  | num (n : Int) : Json
  | str (s : String) : Json
  | arr (elems : List Json) : Json
  | obj (fields : List (String × Json)) : Json

mutual

/-- Decidable equality of JSON documents. -/
def Json.decEq : (a b : Json) → Decidable (a = b)
  | .null, .null => .isTrue rfl
  | .bool a, .bool b =>
    if h : a = b then .isTrue (by rw [h]) else .isFalse (by simp [h])
  | .num a, .num b =>
    if h : a = b then .isTrue (by rw [h]) else .isFalse (by simp [h])
  | .str a, .str b =>
    if h : a = b then .isTrue (by rw [h]) else .isFalse (by simp [h])
  | .arr xs, .arr ys =>
    match Json.decEqList xs ys with
    | .isTrue h => .isTrue (by rw [h])
    | .isFalse h => .isFalse (by simp [h])
  | .obj fs, .obj gs =>
    match Json.decEqFields fs gs with
    | .isTrue h => .isTrue (by rw [h])
    | .isFalse h => .isFalse (by simp [h])
  | .null, .bool _ => .isFalse (fun h => Json.noConfusion h)
  | .null, .num _ => .isFalse (fun h => Json.noConfusion h)
  | .null, .str _ => .isFalse (fun h => Json.noConfusion h)
  | .null, .arr _ => .isFalse (fun h => Json.noConfusion h)
  | .null, .obj _ => .isFalse (fun h => Json.noConfusion h)
  | .bool _, .null => .isFalse (fun h => Json.noConfusion h)
  | .bool _, .num _ => .isFalse (fun h => Json.noConfusion h)
  | .bool _, .str _ => .isFalse (fun h => Json.noConfusion h)
  | .bool _, .arr _ => .isFalse (fun h => Json.noConfusion h)
  | .bool _, .obj _ => .isFalse (fun h => Json.noConfusion h)
  | .num _, .null => .isFalse (fun h => Json.noConfusion h)
  | .num _, .bool _ => .isFalse (fun h => Json.noConfusion h)
  | .num _, .str _ => .isFalse (fun h => Json.noConfusion h)
  | .num _, .arr _ => .isFalse (fun h => Json.noConfusion h)
  | .num _, .obj _ => .isFalse (fun h => Json.noConfusion h)
  | .str _, .null => .isFalse (fun h => Json.noConfusion h)
  | .str _, .bool _ => .isFalse (fun h => Json.noConfusion h)
  | .str _, .num _ => .isFalse (fun h => Json.noConfusion h)
  | .str _, .arr _ => .isFalse (fun h => Json.noConfusion h)
  | .str _, .obj _ => .isFalse (fun h => Json.noConfusion h)
  | .arr _, .null => .isFalse (fun h => Json.noConfusion h)
  | .arr _, .bool _ => .isFalse (fun h => Json.noConfusion h)
  | .arr _, .num _ => .isFalse (fun h => Json.noConfusion h)
  | .arr _, .str _ => .isFalse (fun h => Json.noConfusion h)
  | .arr _, .obj _ => .isFalse (fun h => Json.noConfusion h)
  | .obj _, .null => .isFalse (fun h => Json.noConfusion h)
  | .obj _, .bool _ => .isFalse (fun h => Json.noConfusion h)
  | .obj _, .num _ => .isFalse (fun h => Json.noConfusion h)
  | .obj _, .str _ => .isFalse (fun h => Json.noConfusion h)
  | .obj _, .arr _ => .isFalse (fun h => Json.noConfusion h)

/-- Decidable equality of JSON arrays. -/
def Json.decEqList : (xs ys : List Json) → Decidable (xs = ys)
  | [], [] => .isTrue rfl
  | [], _ :: _ => .isFalse (fun h => List.noConfusion h)
  | _ :: _, [] => .isFalse (fun h => List.noConfusion h)
  | x :: xs, y :: ys =>
    match Json.decEq x y with
    | .isTrue h1 =>
      match Json.decEqList xs ys with
      | .isTrue h2 => .isTrue (by rw [h1, h2])
      | .isFalse h2 => .isFalse (by simp [h2])
    | .isFalse h1 => .isFalse (by simp [h1])

/-- Decidable equality of JSON object field lists. -/
def Json.decEqFields : (fs gs : List (String × Json)) → Decidable (fs = gs)
  | [], [] => .isTrue rfl
  | [], _ :: _ => .isFalse (fun h => List.noConfusion h)
  | _ :: _, [] => .isFalse (fun h => List.noConfusion h)
  | (k, v) :: fs, (l, w) :: gs =>
    if hk : k = l then
      match Json.decEq v w with
      | .isTrue h1 =>
        match Json.decEqFields fs gs with
        | .isTrue h2 => .isTrue (by rw [hk, h1, h2])
        | .isFalse h2 => .isFalse (by simp [h2])
      | .isFalse h1 => .isFalse (by simp [h1])
    else .isFalse (by simp [hk])

end

instance : DecidableEq Json := Json.decEq

/-- Raw bytes of a serialized resource, as carried in
`AdmissionRequest.Object.Raw` / `OldObject.Raw`.  A value is either the
serialization of a JSON document or data that does not parse. -/
inductive Bytes where
  | wellFormed (doc : Json) : Bytes
  | malformed (data : String) : Bytes
deriving DecidableEq

/-- Modelled from the spec: JSON parsing of raw bytes (the decode step
shared by the Reconstructor variants and the Patch Computer).  Fails
exactly on bytes that are not a well-formed serialization. -/
def parseJSON : Bytes → Except String Json
  | .wellFormed doc => .ok doc
  | .malformed _ => .error "invalid character - failed to parse JSON document"

/-- One RFC 6902 patch operation: add / remove / replace / move / copy /
test, each with a JSON-pointer path and, where applicable, a value or a
source path. -/
inductive PatchOp where
  | add (path : String) (value : Json) : PatchOp
  | remove (path : String) : PatchOp
  | replace (path : String) (value : Json) : PatchOp
  | move (source path : String) : PatchOp
  | copy (source path : String) : PatchOp
  | test (path : String) (value : Json) : PatchOp
deriving DecidableEq

/-- Tokens of an RFC 6901 JSON pointer: `""` is the whole document,
otherwise the pointer must start with `/` and is split on `/`. -/
def pointerTokens (path : String) : Option (List String) :=
  if path = "" then some []
  else if path.startsWith "/" then some ((path.drop 1).splitOn "/")
  else none

/-- Replace the value of an existing object field. -/
def setField : List (String × Json) → String → Json → List (String × Json)
  | [], _, _ => []
  | (k, v) :: fs, key, new =>
    if k = key then (k, new) :: fs else (k, v) :: setField fs key new

/-- Insert a field, overwriting an existing one of the same key. -/
def upsertField : List (String × Json) → String → Json → List (String × Json)
  | [], key, new => [(key, new)]
  | (k, v) :: fs, key, new =>
    if k = key then (k, new) :: fs else (k, v) :: upsertField fs key new

/-- Remove an object field (`none` if absent). -/
def removeField : List (String × Json) → String → Option (List (String × Json))
  | [], _ => none
  | (k, v) :: fs, key =>
    if k = key then some fs
    else (removeField fs key).map (fun fs2 => (k, v) :: fs2)

/-- Resolve a pointer (as tokens) inside a document. -/
def Json.getAt : Json → List String → Option Json
  | doc, [] => some doc
  | .obj fs, t :: ts =>
    match fs.lookup t with
    | some child => child.getAt ts
    | none => none
  | .arr xs, t :: ts =>
    match t.toNat? with
    | some i =>
      match xs.get? i with
      | some child => child.getAt ts
      | none => none
    | none => none
  | _, _ :: _ => none

/-- Replace the value at a pointer; the target location must exist. -/
def Json.setAt : Json → List String → Json → Option Json
  | _, [], v => some v
  | .obj fs, t :: ts, v =>
    match fs.lookup t with
    | some child =>
      match child.setAt ts v with
      | some child2 => some (.obj (setField fs t child2))
      | none => none
    | none => none
  | .arr xs, t :: ts, v =>
    match t.toNat? with
    | some i =>
      match xs.get? i with
      | some child =>
        match child.setAt ts v with
        | some child2 => some (.arr (xs.set i child2))
        | none => none
      | none => none
    | none => none
  | _, _ :: _, _ => none

/-- Add a member directly under a document (last pointer token). -/
def addChild (doc : Json) (t : String) (v : Json) : Option Json :=
  match doc with
  | .obj fs => some (.obj (upsertField fs t v))
  | .arr xs =>
    if t = "-" then some (.arr (xs ++ [v]))
    else
      match t.toNat? with
      | some i =>
        if i ≤ xs.length then some (.arr (xs.take i ++ v :: xs.drop i))
        else none
      | none => none
  | _ => none

/-- RFC 6902 `add`: at the root it replaces the whole document,
otherwise it inserts under the parent location, which must exist. -/
def Json.addAt : Json → List String → Json → Option Json
  | _, [], v => some v
  | doc, [t], v => addChild doc t v
  | .obj fs, t :: ts, v =>
    match fs.lookup t with
    | some child =>
      match child.addAt ts v with
      | some child2 => some (.obj (setField fs t child2))
      | none => none
    | none => none
  | .arr xs, t :: ts, v =>
    match t.toNat? with
    | some i =>
      match xs.get? i with
      | some child =>
        match child.addAt ts v with
        | some child2 => some (.arr (xs.set i child2))
        | none => none
      | none => none
    | none => none
  | _, _ :: _, _ => none

/-- Remove a direct member of a document. -/
def removeChild (doc : Json) (t : String) : Option Json :=
  match doc with
  | .obj fs => (removeField fs t).map Json.obj
  | .arr xs =>
    match t.toNat? with
    | some i => if i < xs.length then some (.arr (xs.eraseIdx i)) else none
    | none => none
  | _ => none

/-- RFC 6902 `remove`: the target location must exist and cannot be the
whole document. -/
def Json.removeAt : Json → List String → Option Json
  | _, [] => none
  | doc, [t] => removeChild doc t
  | .obj fs, t :: ts =>
    match fs.lookup t with
    | some child =>
      match child.removeAt ts with
      | some child2 => some (.obj (setField fs t child2))
      | none => none
    | none => none
  | .arr xs, t :: ts =>
    match t.toNat? with
    | some i =>
      match xs.get? i with
      | some child =>
        match child.removeAt ts with
        | some child2 => some (.arr (xs.set i child2))
        | none => none
      | none => none
    | none => none
  | _, _ :: _ => none

/-- Turn a pointer failure into a patch-application error. -/
def ofOption (msg : String) : Option Json → Except String Json
  | some doc => .ok doc
  | none => .error msg

/-- Apply one RFC 6902 operation to a document. -/
def applyOp (doc : Json) : PatchOp → Except String Json
  | .add path v =>
    match pointerTokens path with
    | some ts => ofOption "add operation does not apply" (doc.addAt ts v)
    | none => .error "invalid JSON pointer"
  | .remove path =>
    match pointerTokens path with
    | some ts => ofOption "remove operation does not apply" (doc.removeAt ts)
    | none => .error "invalid JSON pointer"
  | .replace path v =>
    match pointerTokens path with
    | some ts => ofOption "replace operation does not apply" (doc.setAt ts v)
    | none => .error "invalid JSON pointer"
  | .move source path =>
    match pointerTokens source, pointerTokens path with
    | some ts1, some ts2 =>
      match doc.getAt ts1 with
      | some v =>
        match doc.removeAt ts1 with
        | some doc2 => ofOption "move operation does not apply" (doc2.addAt ts2 v)
        | none => .error "move operation does not apply"
      | none => .error "move operation does not apply"
    | _, _ => .error "invalid JSON pointer"
  | .copy source path =>
    match pointerTokens source, pointerTokens path with
    | some ts1, some ts2 =>
      match doc.getAt ts1 with
      | some v => ofOption "copy operation does not apply" (doc.addAt ts2 v)
      | none => .error "copy operation does not apply"
    | _, _ => .error "invalid JSON pointer"
  | .test path v =>
    match pointerTokens path with
    | some ts =>
      match doc.getAt ts with
      | some v2 => if v2 = v then .ok doc else .error "test operation failed"
      | none => .error "test operation does not apply"
    | none => .error "invalid JSON pointer"

/-- Apply an ordered sequence of patch operations. -/
def applyPatch (doc : Json) : List PatchOp → Except String Json
  | [] => .ok doc
  | op :: ops =>
    match applyOp doc op with
    | .ok doc2 => applyPatch doc2 ops
    | .error e => .error e

/-- Modelled from the spec: the Patch Computer (`jsonpatch.CreatePatch`,
absent from the translated sources).  Per §4.3 it parses both inputs
(failing on unparsable data), produces the empty patch when the two
documents are semantically identical, and otherwise an
implementation-defined operation sequence satisfying the round-trip
law; this model emits a single root replacement in that case. -/
def CreatePatch (before after : Bytes) : Except String (List PatchOp) :=
  match parseJSON before with
  | .error e => .error e
  | .ok docBefore =>
    match parseJSON after with
    | .error e => .error e
    | .ok docAfter =>
      if docBefore = docAfter then .ok []
      else .ok [.replace "" docAfter]

/-- Serialization of one patch operation, as `json.Marshal` renders a
`jsonpatch.Operation`. -/
def patchOpToJson : PatchOp → Json
  | .add path v => .obj [("op", .str "add"), ("path", .str path), ("value", v)]
  | .remove path => .obj [("op", .str "remove"), ("path", .str path)]
  | .replace path v => .obj [("op", .str "replace"), ("path", .str path), ("value", v)]
  | .move source path => .obj [("op", .str "move"), ("from", .str source), ("path", .str path)]
  | .copy source path => .obj [("op", .str "copy"), ("from", .str source), ("path", .str path)]
  | .test path v => .obj [("op", .str "test"), ("path", .str path), ("value", v)]

/-- `json.Marshal` of a patch (a slice of operations); serializing a
slice always succeeds, so the error branch the Go code keeps for it is
unreachable in the model. -/
def marshalPatch (ops : List PatchOp) : Bytes :=
  .wellFormed (.arr (ops.map patchOpToJson))

/-! ### Admission data model (`admissionv1beta1`) -/

/-- The admission operation (`admissionv1beta1.Operation`). -/
inductive Operation where
  | create : Operation
  | update : Operation
  | delete : Operation
  | connect : Operation
deriving DecidableEq

/-- The fields of `admissionv1beta1.AdmissionRequest` the webhook
consumes: UID, operation, namespace, name, and the raw bytes of
`Object` and `OldObject`. -/
structure AdmissionRequest where
  uid : String
  operation : Operation
  ns : String
  name : String
  object : Bytes
  oldObject : Bytes
deriving DecidableEq

/-- `admissionv1beta1.AdmissionReview` (the part the webhook reads). -/
structure AdmissionReview where
  request : AdmissionRequest
deriving DecidableEq

/-- The fields of `admissionv1beta1.AdmissionResponse` the webhook
produces: UID, allowed, the marshalled patch with its type, and the
`Result.Message` text carried on denials. -/
structure AdmissionResponse where
  uid : String
  allowed : Bool
  patch : Option Bytes
  patchType : Option String
  resultMessage : Option String
deriving DecidableEq

/-! ### The mutating webhook review pipeline (`webhook.go`) -/

/-- The collaborators of `mutationWebhook` used by `Review`, with the
Go interfaces rendered as functions: `objectCreator.NewObject` builds a
runtime object from raw bytes (type `R`, mirroring `runtime.Object`);
the `metav1.Object` type assertion is `asMetaObject` (type `O`);
`mutator.Mutate` maps an object to its in-place-mutated copy together
with the discarded stop boolean and an optional error; `marshal` is
`json.Marshal` on the object.  The logger's `Debugf` calls have no
observable effect on the response and are not modelled. -/
structure MutationWebhook (R O : Type) where
  objectCreator : Bytes → Except String R
  asMetaObject : R → Option O
  mutator : O → (Bool × Option String) × O
  marshal : O → Except String Bytes

/-- Modelled from the spec: `helpers.ToAdmissionErrorResponse` (absent
from the translated sources).  Per §4.4 step 6 it assembles the denial
outcome: allowed is false, no patch, and the failure reason is the
error's message. -/
def toAdmissionErrorResponse (uid : String) (errMsg : String) : AdmissionResponse :=
  { uid := uid
    allowed := false
    patch := none
    patchType := none
    resultMessage := some errMsg }

/-- The raw bytes `Review` selects before decoding: `Object.Raw`,
except for Delete operations, which carry the body of the object being
deleted in `OldObject.Raw`. -/
def selectRaw (req : AdmissionRequest) : Bytes :=
  if req.operation = .delete then req.oldObject else req.object

/-- `mutationWebhook.mutatingAdmissionReview`: mutate the object,
re-marshal it, diff it against the originally selected raw bytes,
marshal the patch, and forge the allowed response; every error is
turned into an error response. -/
def MutationWebhook.mutatingAdmissionReview (w : MutationWebhook R O)
    (ar : AdmissionReview) (rawObj : Bytes) (obj : O) : AdmissionResponse :=
  match w.mutator obj with
  | ((_, some e), _) => toAdmissionErrorResponse ar.request.uid e
  | ((_, none), mutated) =>
    match w.marshal mutated with
    | .error e => toAdmissionErrorResponse ar.request.uid e
    | .ok mutatedJSON =>
      match CreatePatch rawObj mutatedJSON with
      | .error e => toAdmissionErrorResponse ar.request.uid e
      | .ok patch =>
        { uid := ar.request.uid
          allowed := true
          patch := some (marshalPatch patch)
          patchType := some "JSONPatch"
          resultMessage := none }

/-- `mutationWebhook.Review`: select the raw bytes (old object on
Delete), build a new object from them, type-assert it to
`metav1.Object`, and run the mutating review; every error is turned
into an error response. -/
def MutationWebhook.Review (w : MutationWebhook R O)
    (ar : AdmissionReview) : AdmissionResponse :=
  let raw := selectRaw ar.request
  match w.objectCreator raw with
  | .error e => toAdmissionErrorResponse ar.request.uid e
  | .ok runtimeObj =>
    match w.asMetaObject runtimeObj with
    | none =>
      toAdmissionErrorResponse ar.request.uid
        "impossible to type assert the deep copy to metav1.Object"
    | some mutatingObj => w.mutatingAdmissionReview ar raw mutatingObj

/-! ### Webhook construction (`WebhookConfig.defaults`, `NewWebhook`) -/

/-- A `log.Logger` value: either the package's no-op `log.Dummy` or a
caller-supplied logger, told apart by an identifier.  Only identity
matters to the construction logic. -/
inductive LoggerCap where
  | dummy : LoggerCap
  | custom (id : Nat) : LoggerCap
deriving DecidableEq

/-- A `metrics.Recorder` value: the no-op `metrics.Dummy` or a
caller-supplied recorder. -/
inductive RecorderCap where
  | dummy : RecorderCap
  | custom (id : Nat) : RecorderCap
deriving DecidableEq

/-- An `opentracing.Tracer` value: the no-op `opentracing.NoopTracer`
or a caller-supplied tracer. -/
inductive TracerCap where
  | noop : TracerCap
  | custom (id : Nat) : TracerCap
deriving DecidableEq

/-- `WebhookConfig`: the mutating webhook configuration.  `M` stands
for the caller's `Mutator` implementation; `obj` is the optional
`metav1.Object` prototype (its serialized form), `nil` when the type is
to be inferred; nilable interface fields are `Option`s. -/
structure WebhookConfig (M : Type) where
  name : String
  obj : Option Json
  mutator : Option M
  tracer : Option TracerCap
  metricsRecorder : Option RecorderCap
  logger : Option LoggerCap

/-- The configuration after `defaults` has validated it: the mutator is
known present and the nilable collaborators are filled in. -/
structure DefaultedConfig (M : Type) where
  name : String
  obj : Option Json
  mutator : M
  tracer : TracerCap
  metricsRecorder : RecorderCap
  logger : LoggerCap

/-- `WebhookConfig.defaults`: an empty name or a nil mutator is an
error; a nil logger, metrics recorder, or tracer is replaced by the
no-op implementation (`log.Dummy`, `metrics.Dummy`,
`opentracing.NoopTracer`). -/
def WebhookConfig.defaults (c : WebhookConfig M) : Except String (DefaultedConfig M) :=
  if c.name = "" then .error "name is required"
  else
    match c.mutator with
    | none => .error "mutator is required"
    | some m =>
      .ok { name := c.name
            obj := c.obj
            mutator := m
            tracer := c.tracer.getD .noop
            metricsRecorder := c.metricsRecorder.getD .dummy
            logger := c.logger.getD .dummy }

/-- Modelled from the spec: the two reconstruction variants built by
`helpers.NewStaticObjectCreator` / `helpers.NewDynamicObjectCreator`
(absent from the translated sources).  Only the variant and the
prototype the static one is bound to matter to the construction logic;
their decode behavior is §4.1's contract. -/
inductive ObjectCreator where
  | static (prototype : Json) : ObjectCreator
  | dynamic : ObjectCreator
deriving DecidableEq

/-- Modelled from the spec: `helpers.NewStaticObjectCreator` returns
the static variant bound to the given prototype object. -/
def NewStaticObjectCreator (obj : Json) : ObjectCreator := .static obj

/-- Modelled from the spec: `helpers.NewDynamicObjectCreator` returns
the dynamic variant, which infers the type from the payload. -/
def NewDynamicObjectCreator : ObjectCreator := .dynamic

/-- The `mutationWebhook` struct assembled by `NewWebhook`. -/
structure MutationWebhookData (M : Type) where
  objectCreator : ObjectCreator
  mutator : M
  cfg : DefaultedConfig M
  logger : LoggerCap

/-- `metrics.MutatingReviewKind`. -/
def MutatingReviewKind : String := "mutating"

/-- The `instrumenting.Webhook` wrapper assembled by `NewWebhook`. -/
structure InstrumentingWebhook (M : Type) where
  webhook : MutationWebhookData M
  reviewKind : String
  webhookName : String
  metricsRecorder : RecorderCap
  tracer : TracerCap

/-- `NewWebhook`: validate and default the configuration; choose the
static object creator bound to `cfg.Obj` when that prototype is set and
the dynamic, type-inferring creator otherwise; wrap the mutation
webhook for instrumentation. -/
def NewWebhook (cfg : WebhookConfig M) : Except String (InstrumentingWebhook M) :=
  match cfg.defaults with
  | .error e => .error ("invalid configuration: " ++ e)
  | .ok c =>
    let oc : ObjectCreator :=
      match c.obj with
      | some o => NewStaticObjectCreator o
      | none => NewDynamicObjectCreator
    .ok { webhook := { objectCreator := oc
                       mutator := c.mutator
                       cfg := c
                       logger := c.logger }
          reviewKind := MutatingReviewKind
          webhookName := c.name
          metricsRecorder := c.metricsRecorder
          tracer := c.tracer }

/-! ### Instrumentation (`instrumenting.Webhook`) -/

/-- One metric sample, keyed by webhook name, review kind and outcome,
with the elapsed duration. -/
structure MetricSample where
  webhookName : String
  reviewKind : String
  allowed : Bool
  duration : Nat
deriving DecidableEq

/-- One trace span, tagged with webhook name, review kind, and the
outcome (an error tag on denial). -/
structure Span where
  webhookName : String
  reviewKind : String
  allowed : Bool
  errorTag : Bool
deriving DecidableEq

/-- The outcome of an instrumented review together with the recorded
observability events. -/
structure InstrumentedResult where
  outcome : AdmissionResponse
  metrics : List MetricSample
  spans : List Span
deriving DecidableEq

/-- Modelled from the spec: `instrumenting.Webhook.Review` (absent from
the translated sources).  Per §4.5 it starts a span tagged with the
webhook name and review kind, delegates to the wrapped review, tags the
span with the outcome (an error tag on denial), finishes it, and
records one metric sample keyed by (webhook name, review kind, allowed)
with the elapsed duration — never altering the outcome.  Wall-clock
time is not modelled; the elapsed duration is an input. -/
def instrumentedReview (wh : InstrumentingWebhook M)
    (inner : AdmissionReview → AdmissionResponse) (duration : Nat)
    (ar : AdmissionReview) : InstrumentedResult :=
  let outcome := inner ar
  { outcome := outcome
    metrics := [{ webhookName := wh.webhookName
                  reviewKind := wh.reviewKind
                  allowed := outcome.allowed
                  duration := duration }]
    spans := [{ webhookName := wh.webhookName
                reviewKind := wh.reviewKind
                allowed := outcome.allowed
                errorTag := !outcome.allowed }] }

/-! ### Concrete fixtures used to evaluate the pipeline -/

/-- A pod-like resource document (spec §8, example scenarios). -/
def podDoc : Json := .obj [("metadata", .obj [("name", .str "pod1")])]

/-- A webhook over plain JSON documents whose mutator changes nothing
and signals stop. -/
def noopMutatorWebhook : MutationWebhook Json Json :=
  { objectCreator := parseJSON
    asMetaObject := some
    mutator := fun o => ((true, none), o)
    marshal := fun o => .ok (.wellFormed o) }

/-- The same webhook with the stop flag cleared. -/
def noStopMutatorWebhook : MutationWebhook Json Json :=
  { objectCreator := parseJSON
    asMetaObject := some
    mutator := fun o => ((false, none), o)
    marshal := fun o => .ok (.wellFormed o) }

/-- A webhook whose mutator fails with the error text
`"forbidden change"` (spec §8, scenario 4). -/
def forbidMutatorWebhook : MutationWebhook Json Json :=
  { objectCreator := parseJSON
    asMetaObject := some
    mutator := fun o => ((false, some "forbidden change"), o)
    marshal := fun o => .ok (.wellFormed o) }

/-- A webhook whose mutator fails with an error whose message text is
empty (a legal Go `error`). -/
def emptyErrorMutatorWebhook : MutationWebhook Json Json :=
  { objectCreator := parseJSON
    asMetaObject := some
    mutator := fun o => ((false, some ""), o)
    marshal := fun o => .ok (.wellFormed o) }

/-- `podDoc` with a label-like field added by the sample mutator. -/
def labeledPodDoc : Json :=
  .obj [("metadata", .obj [("name", .str "pod1")]), ("lbl", .str "bar")]

/-- A webhook whose mutator adds the `lbl` field to object documents
(spec §8, scenario 1). -/
def labelMutatorWebhook : MutationWebhook Json Json :=
  { objectCreator := parseJSON
    asMetaObject := some
    mutator := fun o =>
      ((false, none),
        match o with
        | .obj fs => .obj (upsertField fs "lbl" (.str "bar"))
        | j => j)
    marshal := fun o => .ok (.wellFormed o) }

/-- A webhook whose runtime object fails the `metav1.Object` type
assertion. -/
def badAssertWebhook : MutationWebhook Json Json :=
  { objectCreator := parseJSON
    asMetaObject := fun _ => none
    mutator := fun o => ((false, none), o)
    marshal := fun o => .ok (.wellFormed o) }

/-- A webhook whose re-serialization step fails. -/
def badMarshalWebhook : MutationWebhook Json Json :=
  { objectCreator := parseJSON
    asMetaObject := some
    mutator := fun o => ((false, none), o)
    marshal := fun _ => .error "json: unsupported value" }

/-- A webhook whose mutated object re-serializes to bytes that do not
parse, so patch computation fails. -/
def badReserializeWebhook : MutationWebhook Json Json :=
  { objectCreator := parseJSON
    asMetaObject := some
    mutator := fun o => ((false, none), o)
    marshal := fun _ => .ok (.malformed "binary") }

/-- A Create-operation review carrying `podDoc` as the new object. -/
def createReview : AdmissionReview :=
  { request := { uid := "u1", operation := .create, ns := "ns1", name := "pod1",
                 object := .wellFormed podDoc, oldObject := .malformed "" } }

/-- A Create-operation review whose object bytes do not parse
(spec §8, scenario 2). -/
def malformedReview : AdmissionReview :=
  { request := { uid := "u2", operation := .create, ns := "ns1", name := "pod1",
                 object := .malformed "\x7binvalid", oldObject := .malformed "" } }

/-- A Delete-operation review: the object body is gone and the old
object carries `podDoc` (spec §8, scenario 3). -/
def deleteReview : AdmissionReview :=
  { request := { uid := "u3", operation := .delete, ns := "ns1", name := "pod1",
                 object := .wellFormed (.str "ignored"), oldObject := .wellFormed podDoc } }

/-- A configuration with an empty name. -/
def cfgNoName : WebhookConfig Nat :=
  { name := "", obj := none, mutator := some 7,
    tracer := none, metricsRecorder := none, logger := none }

/-- A configuration carrying a prototype object and custom
collaborators. -/
def staticConfig : WebhookConfig Nat :=
  { name := "static-webhook", obj := some podDoc, mutator := some 9,
    tracer := some (.custom 1), metricsRecorder := some (.custom 2),
    logger := some (.custom 3) }

/-- The webhook `NewWebhook` builds from `staticConfig`. -/
def staticBuiltWebhook : InstrumentingWebhook Nat :=
  { webhook := { objectCreator := .static podDoc
                 mutator := 9
                 cfg := { name := "static-webhook", obj := some podDoc, mutator := 9,
                          tracer := .custom 1, metricsRecorder := .custom 2,
                          logger := .custom 3 }
                 logger := .custom 3 }
    reviewKind := MutatingReviewKind
    webhookName := "static-webhook"
    metricsRecorder := .custom 2
    tracer := .custom 1 }

/-- A concrete configuration with a present name and mutator and every
nilable collaborator left nil. -/
def sampleConfig : WebhookConfig Nat :=
  { name := "pod-webhook", obj := none, mutator := some 7,
    tracer := none, metricsRecorder := none, logger := none }

/-- The webhook `NewWebhook` builds from `sampleConfig`. -/
def sampleBuiltWebhook : InstrumentingWebhook Nat :=
  { webhook := { objectCreator := .dynamic
                 mutator := 7
                 cfg := { name := "pod-webhook", obj := none, mutator := 7,
                          tracer := .noop, metricsRecorder := .dummy, logger := .dummy }
                 logger := .dummy }
    reviewKind := MutatingReviewKind
    webhookName := "pod-webhook"
    metricsRecorder := .dummy
    tracer := .noop }

/-! ### Helper lemmas -/

theorem pointerTokens_root : pointerTokens "" = some [] := rfl

theorem Json.setAt_nil (j v : Json) : j.setAt [] v = some v := by
  cases j <;> rfl

theorem applyPatch_rootReplace (jb ja : Json) :
    applyPatch jb [.replace "" ja] = .ok ja := by
  simp [applyPatch, applyOp, pointerTokens_root, Json.setAt_nil, ofOption]

/-- The Patch Computer succeeds whenever both inputs parse. -/
theorem CreatePatch_ok_of_parse (before after : Bytes) (jb ja : Json)
    (hb : parseJSON before = .ok jb) (ha : parseJSON after = .ok ja) :
    CreatePatch before after = .ok (if jb = ja then [] else [.replace "" ja]) := by
  unfold CreatePatch
  rw [hb, ha]
  by_cases h : jb = ja <;> simp [h]

/-- The Patch Computer satisfies the round-trip law: a patch it
produces rewrites the before-document into the after-document. -/
theorem applyPatch_CreatePatch (before after : Bytes) (jb ja : Json)
    (p : List PatchOp)
    (hb : parseJSON before = .ok jb) (ha : parseJSON after = .ok ja)
    (hp : CreatePatch before after = .ok p) :
    applyPatch jb p = .ok ja := by
  rw [CreatePatch_ok_of_parse before after jb ja hb ha] at hp
  simp only [Except.ok.injEq] at hp
  subst hp
  by_cases h : jb = ja
  · simp [applyPatch, h]
  · simp only [if_neg h]
    exact applyPatch_rootReplace jb ja

/-- Two webhooks whose mutators agree on the error and on the mutated
object (the stop boolean may differ) and that share a marshaller run
the mutating review identically. -/
theorem mutatingAdmissionReview_congr {R O : Type}
    (w1 w2 : MutationWebhook R O) (ar : AdmissionReview) (raw : Bytes) (o : O)
    (hmar : w1.marshal = w2.marshal)
    (hmut : ∀ o : O, (w1.mutator o).1.2 = (w2.mutator o).1.2 ∧
      (w1.mutator o).2 = (w2.mutator o).2) :
    w1.mutatingAdmissionReview ar raw o = w2.mutatingAdmissionReview ar raw o := by
  simp only [MutationWebhook.mutatingAdmissionReview]
  obtain ⟨he, hob⟩ := hmut o
  rcases hm1 : w1.mutator o with ⟨⟨s1, e1⟩, m1⟩
  rcases hm2 : w2.mutator o with ⟨⟨s2, e2⟩, m2⟩
  rw [hm1, hm2] at he hob
  simp only at he hob
  subst he
  subst hob
  cases e1 with
  | some e => rfl
  | none => rw [hmar]

/-! ### Claims -/

/-- **C1** (amended).  For every admission request on which any stage
fails — object reconstruction, the `metav1.Object` assertion, the
mutator call, re-serialization, or patch computation — `Review` returns
a denial outcome: the response is an admission error response, so
`Allowed` is false, no `Patch` is present, and the failure reason
carries the failing stage's error message (non-empty whenever that
message is); no error escapes `Review` as a hard failure.  The first
conjunct shows every response is the full allowed form or such a
denial; the remaining five show each stage's failure yields the denial
carrying exactly that stage's message. -/
theorem review_failure_containment {R O : Type} (w : MutationWebhook R O)
    (ar : AdmissionReview) :
    ((∃ ops : List PatchOp,
        w.Review ar = { uid := ar.request.uid
                        allowed := true
                        patch := some (marshalPatch ops)
                        patchType := some "JSONPatch"
                        resultMessage := none }) ∨
      (∃ msg : String, w.Review ar = toAdmissionErrorResponse ar.request.uid msg)) ∧
    (∀ e, w.objectCreator (selectRaw ar.request) = .error e →
      w.Review ar = toAdmissionErrorResponse ar.request.uid e) ∧
    (∀ r : R, w.objectCreator (selectRaw ar.request) = .ok r →
      w.asMetaObject r = none →
      w.Review ar = toAdmissionErrorResponse ar.request.uid
        "impossible to type assert the deep copy to metav1.Object") ∧
    (∀ (r : R) (o o2 : O) (stop : Bool) (e : String),
      w.objectCreator (selectRaw ar.request) = .ok r →
      w.asMetaObject r = some o →
      w.mutator o = ((stop, some e), o2) →
      w.Review ar = toAdmissionErrorResponse ar.request.uid e) ∧
    (∀ (r : R) (o o2 : O) (stop : Bool) (e : String),
      w.objectCreator (selectRaw ar.request) = .ok r →
      w.asMetaObject r = some o →
      w.mutator o = ((stop, none), o2) →
      w.marshal o2 = .error e →
      w.Review ar = toAdmissionErrorResponse ar.request.uid e) ∧
    (∀ (r : R) (o o2 : O) (stop : Bool) (after : Bytes) (e : String),
      w.objectCreator (selectRaw ar.request) = .ok r →
      w.asMetaObject r = some o →
      w.mutator o = ((stop, none), o2) →
      w.marshal o2 = .ok after →
      CreatePatch (selectRaw ar.request) after = .error e →
      w.Review ar = toAdmissionErrorResponse ar.request.uid e) := by
  refine ⟨?_, ?_, ?_, ?_, ?_, ?_⟩
  · simp only [MutationWebhook.Review, MutationWebhook.mutatingAdmissionReview]
    repeat' split
    all_goals first
      | exact Or.inl ⟨_, rfl⟩
      | exact Or.inr ⟨_, rfl⟩
  · intro e he
    simp [MutationWebhook.Review, he]
  · intro r h1 h2
    simp [MutationWebhook.Review, h1, h2]
  · intro r o o2 stop e h1 h2 h3
    simp [MutationWebhook.Review, MutationWebhook.mutatingAdmissionReview, h1, h2, h3]
  · intro r o o2 stop e h1 h2 h3 h4
    simp [MutationWebhook.Review, MutationWebhook.mutatingAdmissionReview,
      h1, h2, h3, h4]
  · intro r o o2 stop after e h1 h2 h3 h4 h5
    simp [MutationWebhook.Review, MutationWebhook.mutatingAdmissionReview,
      h1, h2, h3, h4, h5]

/-- Witness for C1: each of the five stages is made to fail on a
concrete request — the undecodable scenario-2 bytes, a failing type
assertion, a failing mutator, a failing re-serialization, and a
re-serialization whose bytes the patch computation cannot parse — and
each time the review denies with that stage's message. -/
theorem review_failure_containment_witness :
    noopMutatorWebhook.Review malformedReview =
      toAdmissionErrorResponse "u2" "invalid character - failed to parse JSON document" ∧
    badAssertWebhook.Review createReview =
      toAdmissionErrorResponse "u1"
        "impossible to type assert the deep copy to metav1.Object" ∧
    forbidMutatorWebhook.Review createReview =
      toAdmissionErrorResponse "u1" "forbidden change" ∧
    badMarshalWebhook.Review createReview =
      toAdmissionErrorResponse "u1" "json: unsupported value" ∧
    badReserializeWebhook.Review createReview =
      toAdmissionErrorResponse "u1" "invalid character - failed to parse JSON document" :=
  ⟨(review_failure_containment noopMutatorWebhook malformedReview).2.1 _ rfl,
    (review_failure_containment badAssertWebhook createReview).2.2.1 podDoc rfl rfl,
    (review_failure_containment forbidMutatorWebhook createReview).2.2.2.1
      podDoc podDoc podDoc false "forbidden change" rfl rfl rfl,
    (review_failure_containment badMarshalWebhook createReview).2.2.2.2.1
      podDoc podDoc podDoc false "json: unsupported value" rfl rfl rfl rfl,
    (review_failure_containment badReserializeWebhook createReview).2.2.2.2.2
      podDoc podDoc podDoc false (.malformed "binary")
      "invalid character - failed to parse JSON document" rfl rfl rfl rfl rfl⟩

/-- Counterexample for C1 as stated: a mutator may fail with an error
whose message text is empty; the review is then denied with a present
but empty failure reason, so the `FailureReason` message is not always
non-empty. -/
theorem review_denial_message_can_be_empty :
    (emptyErrorMutatorWebhook.Review createReview).allowed = false ∧
    (emptyErrorMutatorWebhook.Review createReview).patch = none ∧
    (emptyErrorMutatorWebhook.Review createReview).resultMessage = some "" :=
  ⟨rfl, rfl, rfl⟩

/-- **C2**.  For a Delete-operation request the raw bytes handed to the
object creator (and used as the before side of the diff) are
`OldObject.Raw`, never `Object.Raw`: the selected bytes are the old
object's, and the response is unchanged under any replacement of
`Object.Raw`.  For every other operation the selected bytes are
`Object.Raw`. -/
theorem review_delete_selects_oldObject {R O : Type} (w : MutationWebhook R O)
    (ar : AdmissionReview) (h : ar.request.operation = .delete) :
    selectRaw ar.request = ar.request.oldObject ∧
    (∀ b : Bytes,
      w.Review { request := { ar.request with object := b } } = w.Review ar) ∧
    (∀ req : AdmissionRequest, req.operation ≠ .delete → selectRaw req = req.object) := by
  refine ⟨by simp [selectRaw, h], fun b => ?_, fun req hreq => by simp [selectRaw, hreq]⟩
  simp [MutationWebhook.Review, MutationWebhook.mutatingAdmissionReview, selectRaw, h]

/-- Witness for C2: spec scenario 3 — on Delete the reconstructor gets
the old object's bytes, and the ignored `Object.Raw` can be replaced
without changing the response. -/
theorem review_delete_selects_oldObject_witness :
    selectRaw deleteReview.request = .wellFormed podDoc ∧
    noopMutatorWebhook.Review
        { request := { deleteReview.request with object := .malformed "gone" } } =
      noopMutatorWebhook.Review deleteReview :=
  ⟨(review_delete_selects_oldObject noopMutatorWebhook deleteReview rfl).1,
    (review_delete_selects_oldObject noopMutatorWebhook deleteReview rfl).2.1 _⟩

/-- **C5**.  Every response `Review` produces echoes the request's UID;
when allowed it carries a patch with patch type `"JSONPatch"` and no
failure message, and when denied it carries no patch, no patch type,
and a failure message. -/
theorem review_response_invariants {R O : Type} (w : MutationWebhook R O)
    (ar : AdmissionReview) :
    (w.Review ar).uid = ar.request.uid ∧
    (if (w.Review ar).allowed then
        (w.Review ar).patch.isSome ∧
        (w.Review ar).patchType = some "JSONPatch" ∧
        (w.Review ar).resultMessage = none
      else
        (w.Review ar).patch = none ∧
        (w.Review ar).patchType = none ∧
        (w.Review ar).resultMessage.isSome) := by
  simp only [MutationWebhook.Review, MutationWebhook.mutatingAdmissionReview]
  repeat' split
  all_goals simp_all [toAdmissionErrorResponse]

/-- **C6**.  When object reconstruction succeeds and the mutator
returns an error, `Review` denies with a failure reason equal to that
error's message text and no patch. -/
theorem review_mutator_error_denies {R O : Type} (w : MutationWebhook R O)
    (ar : AdmissionReview) (r : R) (o o2 : O) (stop : Bool) (e : String)
    (h1 : w.objectCreator (selectRaw ar.request) = .ok r)
    (h2 : w.asMetaObject r = some o)
    (h3 : w.mutator o = ((stop, some e), o2)) :
    (w.Review ar).allowed = false ∧
    (w.Review ar).resultMessage = some e ∧
    (w.Review ar).patch = none := by
  simp [MutationWebhook.Review, MutationWebhook.mutatingAdmissionReview,
    h1, h2, h3, toAdmissionErrorResponse]

/-- Witness for C6: spec scenario 4 — a mutator failing with
`"forbidden change"` denies with exactly that text. -/
theorem review_mutator_error_denies_witness :
    (forbidMutatorWebhook.Review createReview).allowed = false ∧
    (forbidMutatorWebhook.Review createReview).resultMessage = some "forbidden change" ∧
    (forbidMutatorWebhook.Review createReview).patch = none :=
  review_mutator_error_denies forbidMutatorWebhook createReview podDoc podDoc podDoc
    false "forbidden change" rfl rfl rfl

/-- **C3**.  When every stage succeeds and the mutator leaves the
object so that its re-serialization parses to the same document as the
selected raw bytes, `Review` allows with the marshalled empty
(zero-length) patch. -/
theorem review_noop_yields_empty_patch {R O : Type} (w : MutationWebhook R O)
    (ar : AdmissionReview) (r : R) (o o2 : O) (stop : Bool) (doc : Json)
    (after : Bytes)
    (h1 : w.objectCreator (selectRaw ar.request) = .ok r)
    (h2 : w.asMetaObject r = some o)
    (h3 : w.mutator o = ((stop, none), o2))
    (h4 : w.marshal o2 = .ok after)
    (h5 : parseJSON (selectRaw ar.request) = .ok doc)
    (h6 : parseJSON after = .ok doc) :
    w.Review ar = { uid := ar.request.uid
                    allowed := true
                    patch := some (marshalPatch [])
                    patchType := some "JSONPatch"
                    resultMessage := none } := by
  have hcp := CreatePatch_ok_of_parse (selectRaw ar.request) after doc doc h5 h6
  rw [if_pos rfl] at hcp
  simp [MutationWebhook.Review, MutationWebhook.mutatingAdmissionReview,
    h1, h2, h3, h4, hcp]

/-- Witness for C3: spec scenario 5 — a change-free mutation of the pod
document is allowed with the empty patch. -/
theorem review_noop_yields_empty_patch_witness :
    noopMutatorWebhook.Review createReview =
      { uid := "u1"
        allowed := true
        patch := some (marshalPatch [])
        patchType := some "JSONPatch"
        resultMessage := none } :=
  review_noop_yields_empty_patch noopMutatorWebhook createReview podDoc podDoc podDoc
    true podDoc (.wellFormed podDoc) rfl rfl rfl rfl rfl rfl

/-- **C4**.  For every successful review, the patch in the outcome,
applied to the document carried by the originally selected raw bytes,
yields exactly the document carried by the re-serialized mutated
object. -/
theorem review_patch_roundtrip {R O : Type} (w : MutationWebhook R O)
    (ar : AdmissionReview) (r : R) (o o2 : O) (stop : Bool) (after : Bytes)
    (jb ja : Json)
    (h1 : w.objectCreator (selectRaw ar.request) = .ok r)
    (h2 : w.asMetaObject r = some o)
    (h3 : w.mutator o = ((stop, none), o2))
    (h4 : w.marshal o2 = .ok after)
    (h5 : parseJSON (selectRaw ar.request) = .ok jb)
    (h6 : parseJSON after = .ok ja) :
    ∃ ops : List PatchOp,
      CreatePatch (selectRaw ar.request) after = .ok ops ∧
      w.Review ar = { uid := ar.request.uid
                      allowed := true
                      patch := some (marshalPatch ops)
                      patchType := some "JSONPatch"
                      resultMessage := none } ∧
      applyPatch jb ops = .ok ja := by
  have hcp := CreatePatch_ok_of_parse (selectRaw ar.request) after jb ja h5 h6
  refine ⟨_, hcp, ?_, applyPatch_CreatePatch _ _ _ _ _ h5 h6 hcp⟩
  simp [MutationWebhook.Review, MutationWebhook.mutatingAdmissionReview,
    h1, h2, h3, h4, hcp]

/-- Witness for C4: spec scenario 1 — the label-adding mutation yields
a patch that rewrites the original pod document into the labelled
one. -/
theorem review_patch_roundtrip_witness :
    labelMutatorWebhook.Review createReview =
      { uid := "u1"
        allowed := true
        patch := some (marshalPatch [.replace "" labeledPodDoc])
        patchType := some "JSONPatch"
        resultMessage := none } ∧
    applyPatch podDoc [.replace "" labeledPodDoc] = .ok labeledPodDoc := by
  obtain ⟨ops, hp, hrev, happ⟩ :=
    review_patch_roundtrip labelMutatorWebhook createReview podDoc podDoc
      labeledPodDoc false (.wellFormed labeledPodDoc) podDoc labeledPodDoc
      rfl rfl rfl rfl rfl rfl
  have h0 : CreatePatch (selectRaw createReview.request) (.wellFormed labeledPodDoc) =
      .ok [PatchOp.replace "" labeledPodDoc] := rfl
  rw [h0] at hp
  simp only [Except.ok.injEq] at hp
  subst hp
  exact ⟨hrev, happ⟩

/-- **C7**.  Two webhooks whose mutators perform the same in-place
changes and return the same error, differing only in the returned stop
boolean, produce identical review outcomes; and a mutator run returning
stop with no error still proceeds to the diff, yielding an allowed
response with the computed patch. -/
theorem review_stop_flag_unobservable {R O : Type} (w1 w2 : MutationWebhook R O)
    (ar : AdmissionReview)
    (hoc : w1.objectCreator = w2.objectCreator)
    (hmeta : w1.asMetaObject = w2.asMetaObject)
    (hmar : w1.marshal = w2.marshal)
    (hmut : ∀ o : O, (w1.mutator o).1.2 = (w2.mutator o).1.2 ∧
      (w1.mutator o).2 = (w2.mutator o).2) :
    w1.Review ar = w2.Review ar ∧
    (∀ (r : R) (o o2 : O) (after : Bytes) (ops : List PatchOp),
      w1.objectCreator (selectRaw ar.request) = .ok r →
      w1.asMetaObject r = some o →
      w1.mutator o = ((true, none), o2) →
      w1.marshal o2 = .ok after →
      CreatePatch (selectRaw ar.request) after = .ok ops →
      w1.Review ar = { uid := ar.request.uid
                       allowed := true
                       patch := some (marshalPatch ops)
                       patchType := some "JSONPatch"
                       resultMessage := none }) := by
  constructor
  · simp only [MutationWebhook.Review]
    rw [hoc]
    cases hr : w2.objectCreator (selectRaw ar.request) with
    | error e => rfl
    | ok r =>
      rw [hmeta]
      dsimp only
      cases hm : w2.asMetaObject r with
      | none => rfl
      | some o => exact mutatingAdmissionReview_congr w1 w2 ar _ o hmar hmut
  · intro r o o2 after ops g1 g2 g3 g4 g5
    simp [MutationWebhook.Review, MutationWebhook.mutatingAdmissionReview,
      g1, g2, g3, g4, g5]

/-- Witness for C7: the stop-signalling and non-stop no-op webhooks
review the create request identically, and the stop-signalling run is
allowed with the empty patch, not denied. -/
theorem review_stop_flag_unobservable_witness :
    noopMutatorWebhook.Review createReview = noStopMutatorWebhook.Review createReview ∧
    noopMutatorWebhook.Review createReview =
      { uid := "u1"
        allowed := true
        patch := some (marshalPatch [])
        patchType := some "JSONPatch"
        resultMessage := none } := by
  have h := review_stop_flag_unobservable noopMutatorWebhook noStopMutatorWebhook
    createReview rfl rfl rfl (fun _ => ⟨rfl, rfl⟩)
  exact ⟨h.1, h.2 podDoc podDoc podDoc (.wellFormed podDoc) [] rfl rfl rfl rfl rfl⟩

/-- **C8**.  `NewWebhook` fails exactly when the configuration's name
is empty or its mutator is nil; with those present, construction
succeeds and a nil logger, metrics recorder, or tracer is replaced by
the corresponding no-op implementation. -/
theorem NewWebhook_validates_config {M : Type} (cfg : WebhookConfig M) :
    ((∃ e, NewWebhook cfg = .error e) ↔ (cfg.name = "" ∨ cfg.mutator = none)) ∧
    (∀ m : M, cfg.mutator = some m → cfg.name ≠ "" →
      ∃ wh : InstrumentingWebhook M, NewWebhook cfg = .ok wh ∧
        (cfg.logger = none → wh.webhook.logger = .dummy) ∧
        (cfg.metricsRecorder = none → wh.metricsRecorder = .dummy) ∧
        (cfg.tracer = none → wh.tracer = .noop)) := by
  by_cases hn : cfg.name = ""
  · constructor
    · simp [NewWebhook, WebhookConfig.defaults, hn]
    · intro m _ hne
      exact absurd hn hne
  · cases hm : cfg.mutator with
    | none =>
      constructor
      · simp [NewWebhook, WebhookConfig.defaults, hn, hm]
      · intro m hm2 _
        exact Option.noConfusion hm2
    | some m0 =>
      have hok : NewWebhook cfg =
          .ok { webhook := { objectCreator := match cfg.obj with
                               | some o => NewStaticObjectCreator o
                               | none => NewDynamicObjectCreator
                             mutator := m0
                             cfg := { name := cfg.name
                                      obj := cfg.obj
                                      mutator := m0
                                      tracer := cfg.tracer.getD .noop
                                      metricsRecorder := cfg.metricsRecorder.getD .dummy
                                      logger := cfg.logger.getD .dummy }
                             logger := cfg.logger.getD .dummy }
                reviewKind := MutatingReviewKind
                webhookName := cfg.name
                metricsRecorder := cfg.metricsRecorder.getD .dummy
                tracer := cfg.tracer.getD .noop } := by
        simp [NewWebhook, WebhookConfig.defaults, hn, hm]
      constructor
      · rw [hok]
        simp [hn, hm]
      · intro m hm2 _
        exact ⟨_, hok, fun h => by simp [h], fun h => by simp [h], fun h => by simp [h]⟩

/-- Witness for C8: an empty name is rejected, while `sampleConfig`
(nil logger, recorder and tracer) builds a webhook whose collaborators
are the no-op implementations. -/
theorem NewWebhook_validates_config_witness :
    (cfgNoName.name = "" ∨ cfgNoName.mutator = none) ∧
    NewWebhook sampleConfig = .ok sampleBuiltWebhook ∧
    sampleBuiltWebhook.webhook.logger = .dummy ∧
    sampleBuiltWebhook.metricsRecorder = .dummy ∧
    sampleBuiltWebhook.tracer = .noop := by
  obtain ⟨wh, hok, hl, hmr, ht⟩ :=
    (NewWebhook_validates_config sampleConfig).2 7 rfl (by decide)
  have h := (show NewWebhook sampleConfig = .ok sampleBuiltWebhook from rfl).symm.trans hok
  injection h with h
  subst h
  exact ⟨(NewWebhook_validates_config (M := Nat) cfgNoName).1.mp ⟨_, rfl⟩,
    hok, hl rfl, hmr rfl, ht rfl⟩

/-- **C9**.  The instrumentation wrapper around a webhook built by
`NewWebhook` returns the inner review's outcome unchanged and records
exactly one metric sample and one trace span per review, whether the
review allowed or denied. -/
theorem instrumentedReview_frame {M : Type} (cfg : WebhookConfig M)
    (wh : InstrumentingWebhook M) (h : NewWebhook cfg = .ok wh)
    (inner : AdmissionReview → AdmissionResponse) (duration : Nat)
    (ar : AdmissionReview) :
    (instrumentedReview wh inner duration ar).outcome = inner ar ∧
    (instrumentedReview wh inner duration ar).metrics.length = 1 ∧
    (instrumentedReview wh inner duration ar).spans.length = 1 :=
  ⟨rfl, rfl, rfl⟩

/-- Witness for C9: the webhook built from `sampleConfig`, wrapped
around the no-op mutating review, on the create request. -/
theorem instrumentedReview_frame_witness :
    (instrumentedReview sampleBuiltWebhook noopMutatorWebhook.Review 5 createReview).outcome =
      noopMutatorWebhook.Review createReview ∧
    (instrumentedReview sampleBuiltWebhook noopMutatorWebhook.Review 5 createReview).metrics.length = 1 ∧
    (instrumentedReview sampleBuiltWebhook noopMutatorWebhook.Review 5 createReview).spans.length = 1 :=
  instrumentedReview_frame sampleConfig sampleBuiltWebhook rfl
    noopMutatorWebhook.Review 5 createReview

/-- **C10**.  A webhook built by `NewWebhook` uses the static object
creator bound to the configuration's prototype when `Obj` is set and
the dynamic, type-inferring creator when it is nil; no other
configuration field affects the choice. -/
theorem NewWebhook_objectCreator_selection {M : Type}
    (cfg cfg2 : WebhookConfig M) (wh wh2 : InstrumentingWebhook M)
    (h : NewWebhook cfg = .ok wh) (h2 : NewWebhook cfg2 = .ok wh2) :
    (wh.webhook.objectCreator = match cfg.obj with
      | some o => ObjectCreator.static o
      | none => ObjectCreator.dynamic) ∧
    (cfg.obj = cfg2.obj → wh.webhook.objectCreator = wh2.webhook.objectCreator) := by
  have key : ∀ (c : WebhookConfig M) (w0 : InstrumentingWebhook M),
      NewWebhook c = .ok w0 →
      w0.webhook.objectCreator = (match c.obj with
        | some o => ObjectCreator.static o
        | none => ObjectCreator.dynamic) := by
    intro c w0 hw
    unfold NewWebhook at hw
    cases hd : c.defaults with
    | error e => rw [hd] at hw; cases hw
    | ok dc =>
      rw [hd] at hw
      have hobj : dc.obj = c.obj := by
        unfold WebhookConfig.defaults at hd
        split at hd
        · cases hd
        · split at hd
          · cases hd
          · injection hd with hd
            subst hd
            rfl
      injection hw with hw
      subst hw
      rw [← hobj]
      cases dc.obj <;> rfl
  refine ⟨key cfg wh h, fun hsame => ?_⟩
  rw [key cfg wh h, key cfg2 wh2 h2, hsame]

/-- Witness for C10: `staticConfig` (prototype set, custom
collaborators) yields the static creator bound to the pod prototype;
`sampleConfig` (no prototype) yields the dynamic creator. -/
theorem NewWebhook_objectCreator_selection_witness :
    staticBuiltWebhook.webhook.objectCreator = ObjectCreator.static podDoc ∧
    sampleBuiltWebhook.webhook.objectCreator = ObjectCreator.dynamic :=
  ⟨(NewWebhook_objectCreator_selection staticConfig sampleConfig
      staticBuiltWebhook sampleBuiltWebhook rfl rfl).1,
    (NewWebhook_objectCreator_selection sampleConfig staticConfig
      sampleBuiltWebhook staticBuiltWebhook rfl rfl).1⟩

end Kubewebhook
